import Mathlib

/-!
# Verification of the HR-automation client core

Shallow embedding of the per-session conversational workflow (chat page,
interview page) and the result-reconciliation logic of the resume-screening
view, translated from the React page components:

* ResumePage   (src/unnamed/part_000)
* DocumentsPage (src/unnamed/part_001)
* ChatPage     (src/frontend/src/pages/ChatPage.js)
* InterviewPage (src/frontend/src/pages/InterviewPage.js)

Each page is modelled as a deterministic event-step function on an explicit
state record mirroring the page's `useState` hooks.  A user-interface event
(button click, key press, file selection) is applicable exactly when the
corresponding control is rendered and enabled in the page's JSX; the event
handler bodies are translated line by line.  An outbound HTTP request is
made explicit as the `Option`-valued second component of a step, and the
resolution of an in-flight request (the `await` resumption, success or
failure) is a separate event, applicable only while the corresponding
loading flag is set.  JavaScript numbers are modelled as rationals.
-/

namespace AIAgent

/-- Message role tag used in every transcript turn. -/
inductive Role where
  | user
  | assistant
deriving DecidableEq, Repr

/-- JavaScript's `String.prototype.trim`: drop whitespace from both ends.
Defined by structural recursion on the character list so that concrete
instances reduce inside the kernel. -/
def jsTrim (s : String) : String :=
  ⟨((s.data.dropWhile Char.isWhitespace).reverse.dropWhile Char.isWhitespace).reverse⟩

/-- JavaScript truthiness of an optional numeric field: `undefined`/`null`
and `0` are falsy, every other number is truthy.  This is the test the
ResumePage applies in `resumes.filter(r => r.score)`. -/
def jsTruthy (q : Option ℚ) : Bool :=
  match q with
  | none => false
  | some v => decide (v ≠ 0)

/-! ## Result Reconciliation (ResumePage, src/unnamed/part_000)

`displayResults = screenResults.length > 0 ? screenResults
                                           : resumes.filter(r => r.score)`
(line 106). The two branches carry values of different shapes (screening
results vs. catalog items), which the dynamically-typed source conflates;
we keep them apart with a sum. -/

/-- One element of `screenResults`, as consumed by the render code
(`result.resume_id`, `result.filename`, `result.score`, `result.analysis`). -/
structure ScreenResult where
  resume_id : String
  filename : String
  score : Option ℚ
  analysis : Option String
deriving DecidableEq, Repr

/-- One element of the `resumes` catalog returned by GET /resumes
(`id`, `filename`, `uploaded_at`, optional `score`). -/
structure ResumeItem where
  id : String
  filename : String
  uploaded_at : String
  score : Option ℚ
deriving DecidableEq, Repr

/-- ResumePage line 106: the list the screening-results pane displays. -/
def displayResults (screenResults : List ScreenResult) (resumes : List ResumeItem) :
    List ScreenResult ⊕ List ResumeItem :=
  if screenResults.length > 0 then Sum.inl screenResults
  else Sum.inr (resumes.filter fun r => jsTruthy r.score)

/-- The fallback list as the specification words it (section 4.5): the
catalog filtered to items with a defined `score`.  Stated from the spec,
for comparison with `displayResults` (which tests JS truthiness instead). -/
def specFallback (resumes : List ResumeItem) : List ResumeItem :=
  resumes.filter fun r => r.score.isSome

/-! ## Session identity

ChatPage line 18:      useState(() => `session_${Date.now()}`)
InterviewPage line 23: useState(() => `interview_${Date.now()}`)

`Date.now()` (integer milliseconds) is the `now` parameter. -/

/-- Which page created the session. -/
inductive SessionKind where
  | chat
  | interview
deriving DecidableEq, Repr

/-- The session id string built at page mount from the current clock. -/
def mkSessionId (k : SessionKind) (now : Nat) : String :=
  (match k with
   | SessionKind.chat => "session_"
   | SessionKind.interview => "interview_") ++ Nat.repr now

/-- The id handed to the i-th session creation of a given kind, where
`clock i` is the `Date.now()` reading observed by that creation. -/
def sessionIdAtCreation (k : SessionKind) (clock : Nat → Nat) (i : Nat) : String :=
  mkSessionId k (clock i)

/-! ### Decimal printing is injective

`Nat.repr` has no injectivity lemma in the library; we relate it to
`Nat.digits` and derive one. -/

/-- Decimal digit characters of `n`, least significant first. -/
def decChars (n : Nat) : List Char :=
  (Nat.digits 10 n).map Nat.digitChar

theorem toDigitsCore_eq_decChars (fuel : Nat) :
    ∀ n ds, n ≠ 0 → n < 10 ^ fuel →
      Nat.toDigitsCore 10 fuel n ds = (decChars n).reverse ++ ds := by
  induction fuel with
  | zero =>
    intro n ds hn hlt
    simp at hlt
    omega
  | succ fuel ih =>
    intro n ds hn hlt
    by_cases hq : n / 10 = 0
    · have hn10 : n < 10 := by omega
      have hdig : Nat.digits 10 n = [n % 10] := by
        rw [Nat.digits_def' (by norm_num : 1 < 10) (Nat.pos_of_ne_zero hn), hq]
        simp
      simp [Nat.toDigitsCore, hq, decChars, hdig]
    · have hq' : n / 10 < 10 ^ fuel := by
        rw [Nat.div_lt_iff_lt_mul (by norm_num : 0 < 10)]
        calc n < 10 ^ (fuel + 1) := hlt
        _ = 10 ^ fuel * 10 := by ring
      have hdig : Nat.digits 10 n =
          n % 10 :: Nat.digits 10 (n / 10) :=
        Nat.digits_def' (by norm_num : 1 < 10) (Nat.pos_of_ne_zero hn)
      have step : Nat.toDigitsCore 10 (fuel + 1) n ds =
          Nat.toDigitsCore 10 fuel (n / 10) (Nat.digitChar (n % 10) :: ds) := by
        simp [Nat.toDigitsCore, hq]
      rw [step, ih (n / 10) _ hq hq']
      simp [decChars, hdig]

theorem toDigits_eq (n : Nat) :
    Nat.toDigits 10 n = if n = 0 then ['0'] else (decChars n).reverse := by
  by_cases hn : n = 0
  · subst hn; rfl
  · have hlt : n < 10 ^ (n + 1) := by
      calc n < 10 ^ n := Nat.lt_pow_self (by norm_num) n
      _ ≤ 10 ^ (n + 1) := Nat.pow_le_pow_right (by norm_num) (Nat.le_succ n)
    rw [Nat.toDigits, toDigitsCore_eq_decChars (n + 1) n [] hn hlt]
    simp [hn]

/-- Inverse of `Nat.digitChar` on decimal digits. -/
def charVal (c : Char) : Nat :=
  if c = '0' then 0 else if c = '1' then 1 else if c = '2' then 2 else
  if c = '3' then 3 else if c = '4' then 4 else if c = '5' then 5 else
  if c = '6' then 6 else if c = '7' then 7 else if c = '8' then 8 else 9

theorem charVal_digitChar {d : Nat} (hd : d < 10) :
    charVal (Nat.digitChar d) = d := by
  interval_cases d <;> rfl

theorem decChars_map_charVal (n : Nat) :
    (decChars n).map charVal = Nat.digits 10 n := by
  unfold decChars
  rw [List.map_map]
  calc (Nat.digits 10 n).map (charVal ∘ Nat.digitChar)
      = (Nat.digits 10 n).map id := by
        apply List.map_congr_left
        intro d hd
        exact charVal_digitChar (Nat.digits_lt_base (by norm_num) hd)
    _ = Nat.digits 10 n := List.map_id _

theorem decChars_inj {a b : Nat} (h : decChars a = decChars b) : a = b := by
  have hda : Nat.digits 10 a = Nat.digits 10 b := by
    rw [← decChars_map_charVal a, ← decChars_map_charVal b, h]
  calc a = Nat.ofDigits 10 (Nat.digits 10 a) := (Nat.ofDigits_digits 10 a).symm
    _ = Nat.ofDigits 10 (Nat.digits 10 b) := congrArg _ hda
    _ = b := Nat.ofDigits_digits 10 b

theorem decChars_ne_zero_chars {b : Nat} (hb : b ≠ 0) : decChars b ≠ ['0'] := by
  intro h0
  have hbd : Nat.digits 10 b = [0] := by
    have := congrArg (List.map charVal) h0
    rw [decChars_map_charVal] at this
    simpa [charVal] using this
  have : b = 0 := by
    calc b = Nat.ofDigits 10 (Nat.digits 10 b) := (Nat.ofDigits_digits 10 b).symm
      _ = Nat.ofDigits 10 [0] := congrArg _ hbd
      _ = 0 := by simp [Nat.ofDigits]
  exact hb this

theorem nat_repr_inj {a b : Nat} (h : Nat.repr a = Nat.repr b) : a = b := by
  have hd : Nat.toDigits 10 a = Nat.toDigits 10 b := by
    have : (Nat.toDigits 10 a).asString.data = (Nat.toDigits 10 b).asString.data :=
      congrArg String.data h
    simpa [List.asString] using this
  rw [toDigits_eq, toDigits_eq] at hd
  by_cases ha : a = 0 <;> by_cases hb : b = 0
  · omega
  · exfalso
    apply decChars_ne_zero_chars hb
    have := congrArg List.reverse hd
    simpa [ha, hb] using this.symm
  · exfalso
    apply decChars_ne_zero_chars ha
    have := congrArg List.reverse hd
    simpa [ha, hb] using this
  · simp only [ha, hb, if_neg, ite_false] at hd
    have := congrArg List.reverse hd
    simp at this
    exact decChars_inj this

theorem mkSessionId_inj (k : SessionKind) {t1 t2 : Nat} (h : t1 ≠ t2) :
    mkSessionId k t1 ≠ mkSessionId k t2 := by
  intro he
  apply h
  apply nat_repr_inj
  apply String.ext
  have hdata : (mkSessionId k t1).data = (mkSessionId k t2).data :=
    congrArg String.data he
  cases k <;> simp only [mkSessionId, String.data_append] at hdata <;>
    exact List.append_cancel_left hdata

/-! ## ChatPage (src/frontend/src/pages/ChatPage.js)

State mirrors the hooks of lines 15-18; `historyPending` records that the
one-shot history GET issued by the mount effect (lines 29-42) has not yet
resolved.  `loading` is true exactly while a POST /chat is in flight. -/

namespace ChatPage

/-- One entry of the chat `messages` array: user turns are appended as
`{role, message}` (line 49), assistant turns as
`{role, message, confidence, escalated}` (lines 58-66). -/
structure CTurn where
  role : Role
  message : String
  confidence : Option ℚ
  escalated : Option Bool
deriving DecidableEq, Repr

/-- Body of the POST /chat request (lines 53-56). -/
structure ChatRequest where
  session_id : String
  message : String
deriving DecidableEq, Repr

/-- The page's mutable state (useState hooks, lines 15-18). -/
structure CState where
  messages : List CTurn
  input : String
  loading : Bool
  historyPending : Bool
  sessionId : String
deriving DecidableEq, Repr

/-- Initial state at page mount; `now` is the `Date.now()` reading taken by
the `sessionId` initializer (line 18).  The mount effect has just issued
the history GET, so `historyPending` starts true. -/
def cInit (now : Nat) : CState :=
  { messages := [], input := "", loading := false, historyPending := true,
    sessionId := mkSessionId SessionKind.chat now }

/-- Events the page can receive: user input, and resolutions of the two
kinds of in-flight request. -/
inductive CEvent where
  | typeInput (s : String)
  | clickSend
  | chatSuccess (resp : String) (confidence : Option ℚ) (escalated : Option Bool)
  | chatFailure
  | historySuccess (msgs : Option (List CTurn))
  | historyFailure
deriving DecidableEq, Repr

/-- `handleSend` (lines 44-77) up to its suspension point: the guard of
line 45, the optimistic user-turn append and input clear of lines 47-50,
and the request of lines 53-56.  The catch/finally continuation is the
`chatSuccess`/`chatFailure` event. -/
def handleSend (st : CState) : CState × Option ChatRequest :=
  if jsTrim st.input = "" ∨ st.loading then (st, none)
  else
    ({ st with input := "",
               messages := st.messages ++ [⟨Role.user, st.input, none, none⟩],
               loading := true },
     some ⟨st.sessionId, st.input⟩)

/-- One page step.  User events apply only when the source control is
rendered and enabled: the text field is disabled while `loading`
(line 178), and both the send button (line 183) and the enter key
(line 168, its field disabled while loading) require `loading` false.
Request resolutions apply only while the matching request is in flight. -/
def cstep (st : CState) (e : CEvent) : CState × Option ChatRequest :=
  match e with
  | CEvent.typeInput s =>
      if st.loading then (st, none) else ({ st with input := s }, none)
  | CEvent.clickSend =>
      if st.loading then (st, none) else handleSend st
  | CEvent.chatSuccess resp conf esc =>
      if st.loading then
        ({ st with messages := st.messages ++ [⟨Role.assistant, resp, conf, esc⟩],
                   loading := false }, none)
      else (st, none)
  | CEvent.chatFailure =>
      if st.loading then ({ st with loading := false }, none) else (st, none)
  | CEvent.historySuccess msgs =>
      if st.historyPending then
        (match msgs with
         | some ms => { st with messages := ms, historyPending := false }
         | none => { st with historyPending := false }, none)
      else (st, none)
  | CEvent.historyFailure =>
      if st.historyPending then ({ st with historyPending := false }, none)
      else (st, none)

/-- States the chat page can actually be in. -/
inductive CReachable (now : Nat) : CState → Prop where
  | init : CReachable now (cInit now)
  | step : ∀ {st}, CReachable now st → ∀ e, CReachable now (cstep st e).1

end ChatPage

/-! ## InterviewPage (src/frontend/src/pages/InterviewPage.js)

State mirrors the hooks of lines 15-23.  The page renders the start form
while `sessionStarted` is false (line 92) and the conversation otherwise;
the answer input area exists only while not `completed` (line 268). -/

namespace InterviewPage

/-- One entry of the interview `messages` array: `{role, content}`
(lines 48, 63, 74). -/
structure ITurn where
  role : Role
  content : String
deriving DecidableEq, Repr

/-- The `evaluation` object built on completion (lines 78-81). -/
structure Evaluation where
  score : Option ℚ
  feedback : String
deriving DecidableEq, Repr

/-- Body of a POST /interview request: start (lines 42-46, no message) or
answer (lines 67-72, with message). -/
structure InterviewRequest where
  session_id : String
  candidate_name : String
  position : String
  message : Option String
deriving DecidableEq, Repr

/-- The page's mutable state (useState hooks, lines 15-23). -/
structure IState where
  sessionStarted : Bool
  candidateName : String
  position : String
  messages : List ITurn
  input : String
  loading : Bool
  completed : Bool
  evaluation : Option Evaluation
  sessionId : String
deriving DecidableEq, Repr

/-- Initial state at page mount; `now` is the `Date.now()` reading taken by
the `sessionId` initializer (line 23). -/
def iInit (now : Nat) : IState :=
  { sessionStarted := false, candidateName := "", position := "",
    messages := [], input := "", loading := false, completed := false,
    evaluation := none, sessionId := mkSessionId SessionKind.interview now }

/-- Events: typing into the three text fields, the two buttons, and the
resolutions of the two kinds of in-flight request.  An answer response
carries the fields read from it: `response`, `completed`, `score`
(lines 74-79). -/
inductive IEvent where
  | typeName (s : String)
  | typePosition (s : String)
  | typeInput (s : String)
  | clickStart
  | clickSend
  | startSuccess (resp : String)
  | startFailure
  | answerSuccess (resp : String) (completedFlag : Bool) (score : Option ℚ)
  | answerFailure
deriving DecidableEq, Repr

/-- `startInterview` (lines 34-56) up to its suspension point: the
empty-field guard of line 35 and the loading flag and request of
lines 40-46.  The function body itself contains no phase check. -/
def startInterview (st : IState) : IState × Option InterviewRequest :=
  if jsTrim st.candidateName = "" ∨ jsTrim st.position = "" then (st, none)
  else
    ({ st with loading := true },
     some ⟨st.sessionId, st.candidateName, st.position, none⟩)

/-- `handleSend` (lines 58-90) up to its suspension point: the guard of
line 59 (empty input, in-flight exchange, or completed session), the
optimistic user-turn append and input clear of lines 61-64, and the
request of lines 67-72. -/
def handleSend (st : IState) : IState × Option InterviewRequest :=
  if jsTrim st.input = "" ∨ st.loading ∨ st.completed then (st, none)
  else
    ({ st with input := "",
               messages := st.messages ++ [⟨Role.user, st.input⟩],
               loading := true },
     some ⟨st.sessionId, st.candidateName, st.position, some st.input⟩)

/-- One page step.  Render/enabled conditions from the JSX: the name and
position fields and the start button exist only on the start form
(`sessionStarted` false, line 92) and the button is disabled while
`loading` (line 160); the answer field and send button exist only when
`sessionStarted` is true and `completed` is false (lines 188, 268) and are
disabled while `loading` (lines 285, 290).  A start resolution applies
while a start request is in flight (`loading` with `sessionStarted` still
false); an answer resolution while an answer request is in flight
(`loading` with `sessionStarted` true).

On start success the transcript is REPLACED by the single opening
assistant turn (line 48).  On a completing answer the assistant turn is
appended first (line 74), then `completed` is set and `evaluation` built
from the response's `score` and `response` fields (lines 76-81). -/
def istep (st : IState) (e : IEvent) : IState × Option InterviewRequest :=
  match e with
  | IEvent.typeName s =>
      if st.sessionStarted then (st, none)
      else ({ st with candidateName := s }, none)
  | IEvent.typePosition s =>
      if st.sessionStarted then (st, none)
      else ({ st with position := s }, none)
  | IEvent.typeInput s =>
      if st.sessionStarted && !st.completed && !st.loading then
        ({ st with input := s }, none)
      else (st, none)
  | IEvent.clickStart =>
      if !st.sessionStarted && !st.loading then startInterview st
      else (st, none)
  | IEvent.clickSend =>
      if st.sessionStarted && !st.completed && !st.loading then handleSend st
      else (st, none)
  | IEvent.startSuccess resp =>
      if st.loading && !st.sessionStarted then
        ({ st with messages := [⟨Role.assistant, resp⟩],
                   sessionStarted := true, loading := false }, none)
      else (st, none)
  | IEvent.startFailure =>
      if st.loading && !st.sessionStarted then
        ({ st with loading := false }, none)
      else (st, none)
  | IEvent.answerSuccess resp flag score =>
      if st.loading && st.sessionStarted then
        (let st1 : IState := { st with messages := st.messages ++ [⟨Role.assistant, resp⟩] }
         let st2 : IState := if flag then
             { st1 with completed := true,
                        evaluation := some ⟨score, resp⟩ }
           else st1
         ({ st2 with loading := false }, none))
      else (st, none)
  | IEvent.answerFailure =>
      if st.loading && st.sessionStarted then
        ({ st with loading := false }, none)
      else (st, none)

/-- States the interview page can actually be in. -/
inductive IReachable (now : Nat) : IState → Prop where
  | init : IReachable now (iInit now)
  | step : ∀ {st}, IReachable now st → ∀ e, IReachable now (istep st e).1

/-- The render-time marking of a terminal turn: message index `i` is shown
with the terminal (emerald) styling exactly when the interview is
completed and `i` is the last index (line 241). -/
def isTerminalTurn (st : IState) (i : Nat) : Bool :=
  st.completed && (i == st.messages.length - 1)

end InterviewPage

/-- A file object as delivered by a file-selection event: only its `name`
is inspected by the client code. -/
structure JsFile where
  name : String
deriving DecidableEq, Repr

/-- Client-side upload validation shared by ResumePage line 40 and
DocumentsPage line 44: the file name must end in `.pdf` or `.docx`
(JavaScript `name.endsWith(...)`, written over the character list so that
concrete instances reduce inside the kernel). -/
def validUploadName (name : String) : Bool :=
  ".pdf".data.isSuffixOf name.data || ".docx".data.isSuffixOf name.data

/-! ## ResumePage (src/unnamed/part_000)

State mirrors the hooks of lines 16-21. -/

namespace ResumePage

/-- Body of the POST /upload-resume request (lines 55-61). -/
structure UploadRequest where
  file : JsFile
deriving DecidableEq, Repr

/-- Body of the POST /screen-resumes request (lines 86-88). -/
structure ScreenRequest where
  job_description : String
deriving DecidableEq, Repr

/-- The page's mutable state (useState hooks, lines 16-21). -/
structure RState where
  resumes : List ResumeItem
  uploading : Bool
  screening : Bool
  selectedFile : Option JsFile
  jobDescription : String
  screenResults : List ScreenResult
deriving DecidableEq, Repr

/-- Initial state at page mount (the mount effect has just issued the
GET /resumes whose resolution is the `resumesLoaded` event). -/
def rInit : RState :=
  { resumes := [], uploading := false, screening := false,
    selectedFile := none, jobDescription := "", screenResults := [] }

/-- A request the page can have outstanding. -/
inductive RRequest where
  | upload (r : UploadRequest)
  | screen (r : ScreenRequest)
deriving DecidableEq, Repr

/-- Events: file selection (with the chosen file list, possibly empty when
the dialog is cancelled), the two buttons, typing the job description, and
the resolutions of the outstanding requests.  `resumesLoaded` resolves any
GET /resumes (issued at mount, after an upload, or after a screening). -/
inductive REvent where
  | fileChange (files : List JsFile)
  | clickUpload
  | uploadSuccess
  | uploadFailure
  | typeJob (s : String)
  | clickScreen
  | screenSuccess (results : List ScreenResult)
  | screenFailure
  | resumesLoaded (items : List ResumeItem)
  | resumesLoadFailure
deriving DecidableEq, Repr

/-- `handleFileChange` (lines 37-46): take the first chosen file; keep it
only when its name passes validation, otherwise leave the selection as it
was (only an error toast is shown). -/
def handleFileChange (st : RState) (files : List JsFile) : RState :=
  match files.head? with
  | none => st
  | some file =>
      if validUploadName file.name then { st with selectedFile := some file }
      else st

/-- `handleUpload` (lines 48-71) up to its suspension point: the
no-file guard of line 49 and the upload request of lines 54-61. -/
def handleUpload (st : RState) : RState × Option RRequest :=
  match st.selectedFile with
  | none => (st, none)
  | some f => ({ st with uploading := true }, some (RRequest.upload ⟨f⟩))

/-- `handleScreenResumes` (lines 73-98) up to its suspension point: the
empty-job-description guard of line 74, the no-resumes guard of line 79,
and the screening request of lines 84-88. -/
def handleScreenResumes (st : RState) : RState × Option RRequest :=
  if jsTrim st.jobDescription = "" then (st, none)
  else if st.resumes.length = 0 then (st, none)
  else ({ st with screening := true }, some (RRequest.screen ⟨st.jobDescription⟩))

/-- One page step.  The upload button is disabled while `uploading` or with
no selected file (line 163); the screen button while `screening`, with a
blank job description, or with an empty catalog (line 224).  An upload
success clears the selection (line 63); a screening success stores the
returned results (line 89); both then refresh the catalog via
GET /resumes, resolved later by `resumesLoaded` (line 30). -/
def rstep (st : RState) (e : REvent) : RState × Option RRequest :=
  match e with
  | REvent.fileChange files => (handleFileChange st files, none)
  | REvent.clickUpload =>
      if !st.uploading && st.selectedFile.isSome then handleUpload st
      else (st, none)
  | REvent.uploadSuccess =>
      if st.uploading then
        ({ st with selectedFile := none, uploading := false }, none)
      else (st, none)
  | REvent.uploadFailure =>
      if st.uploading then ({ st with uploading := false }, none)
      else (st, none)
  | REvent.typeJob s => ({ st with jobDescription := s }, none)
  | REvent.clickScreen =>
      if !st.screening && jsTrim st.jobDescription ≠ "" && st.resumes.length ≠ 0 then
        handleScreenResumes st
      else (st, none)
  | REvent.screenSuccess results =>
      if st.screening then
        ({ st with screenResults := results, screening := false }, none)
      else (st, none)
  | REvent.screenFailure =>
      if st.screening then ({ st with screening := false }, none)
      else (st, none)
  | REvent.resumesLoaded items => ({ st with resumes := items }, none)
  | REvent.resumesLoadFailure => (st, none)

/-- States the resume page can actually be in. -/
inductive RReachable : RState → Prop where
  | init : RReachable rInit
  | step : ∀ {st}, RReachable st → ∀ e, RReachable (rstep st e).1

end ResumePage

/-! ## DocumentsPage (src/unnamed/part_001)

State mirrors the hooks of lines 22-25. -/

namespace DocumentsPage

/-- One entry of the `documents` list returned by GET /documents
(render code reads `id`, `filename`, `doc_type`, `uploaded_at`). -/
structure DocRecord where
  id : String
  filename : String
  doc_type : String
  uploaded_at : String
deriving DecidableEq, Repr

/-- Body of the POST /upload-document request (lines 59-66). -/
structure DocUploadRequest where
  file : JsFile
  doc_type : String
deriving DecidableEq, Repr

/-- The page's mutable state (useState hooks, lines 22-25). -/
structure DState where
  documents : List DocRecord
  uploading : Bool
  docType : String
  selectedFile : Option JsFile
deriving DecidableEq, Repr

/-- Initial state at page mount (`docType` starts as "hr", line 24). -/
def dInit : DState :=
  { documents := [], uploading := false, docType := "hr", selectedFile := none }

/-- Events: file selection, document-type choice, the upload button, and
request resolutions. -/
inductive DEvent where
  | fileChange (files : List JsFile)
  | selectDocType (s : String)
  | clickUpload
  | uploadSuccess
  | uploadFailure
  | documentsLoaded (items : List DocRecord)
  | documentsLoadFailure
deriving DecidableEq, Repr

/-- `handleFileChange` (lines 41-50): identical to the resume page's. -/
def handleFileChange (st : DState) (files : List JsFile) : DState :=
  match files.head? with
  | none => st
  | some file =>
      if validUploadName file.name then { st with selectedFile := some file }
      else st

/-- `handleUpload` (lines 52-76) up to its suspension point: the no-file
guard of line 53 and the upload request of lines 58-66 (file plus the
chosen `doc_type`). -/
def handleUpload (st : DState) : DState × Option DocUploadRequest :=
  match st.selectedFile with
  | none => (st, none)
  | some f => ({ st with uploading := true }, some ⟨f, st.docType⟩)

/-- One page step.  The upload button is disabled while `uploading` or with
no selected file (line 144); an upload success clears the selection
(line 68) and refreshes the list via GET /documents, resolved later by
`documentsLoaded`. -/
def dstep (st : DState) (e : DEvent) : DState × Option DocUploadRequest :=
  match e with
  | DEvent.fileChange files => (handleFileChange st files, none)
  | DEvent.selectDocType s => ({ st with docType := s }, none)
  | DEvent.clickUpload =>
      if !st.uploading && st.selectedFile.isSome then handleUpload st
      else (st, none)
  | DEvent.uploadSuccess =>
      if st.uploading then
        ({ st with selectedFile := none, uploading := false }, none)
      else (st, none)
  | DEvent.uploadFailure =>
      if st.uploading then ({ st with uploading := false }, none)
      else (st, none)
  | DEvent.documentsLoaded items => ({ st with documents := items }, none)
  | DEvent.documentsLoadFailure => (st, none)

/-- States the documents page can actually be in. -/
inductive DReachable : DState → Prop where
  | init : DReachable dInit
  | step : ∀ {st}, DReachable st → ∀ e, DReachable (dstep st e).1

end DocumentsPage

/-! ## Helper lemmas -/

/-- Every chat-page event leaves the session id untouched. -/
theorem ChatPage.cstep_sessionId (st : ChatPage.CState) (e : ChatPage.CEvent) :
    ((ChatPage.cstep st e).1.sessionId = st.sessionId) := by
  cases e <;>
    simp only [ChatPage.cstep, ChatPage.handleSend] <;>
    repeat' first | split | rfl

/-- Every interview-page event leaves the session id untouched. -/
theorem InterviewPage.istep_sessionId (st : InterviewPage.IState) (e : InterviewPage.IEvent) :
    ((InterviewPage.istep st e).1.sessionId = st.sessionId) := by
  cases e <;>
    simp only [InterviewPage.istep, InterviewPage.handleSend,
      InterviewPage.startInterview] <;>
    repeat' first | split | rfl

/-- The chat page always carries the id minted at mount. -/
theorem ChatPage.cSessionId_stable (now : Nat) (st : ChatPage.CState)
    (h : ChatPage.CReachable now st) :
    st.sessionId = mkSessionId SessionKind.chat now := by
  induction h with
  | init => rfl
  | step _ e ih => rw [ChatPage.cstep_sessionId, ih]

/-- The interview page always carries the id minted at mount. -/
theorem InterviewPage.iSessionId_stable (now : Nat) (st : InterviewPage.IState)
    (h : InterviewPage.IReachable now st) :
    st.sessionId = mkSessionId SessionKind.interview now := by
  induction h with
  | init => rfl
  | step _ e ih => rw [InterviewPage.istep_sessionId, ih]

/-- Chat ids and interview ids can never collide: they start with
different characters. -/
theorem mkSessionId_kind_ne (t1 t2 : Nat) :
    mkSessionId SessionKind.chat t1 ≠ mkSessionId SessionKind.interview t2 := by
  intro he
  have h1 : (mkSessionId SessionKind.chat t1).data.head? = some 's' := rfl
  have h2 : (mkSessionId SessionKind.interview t2).data.head? = some 'i' := rfl
  rw [he, h2] at h1
  simp at h1

/-! ## Claims about Result Reconciliation -/

/-- Claim C1: for every non-empty lastScreeningRun and every catalog,
the screening view displays exactly the last screening run, element for
element, in the order received from the engine, with no client-side
re-sorting. -/
theorem C1_nonempty_run_displayed_verbatim
    (run : List ScreenResult) (cat : List ResumeItem) (h : run ≠ []) :
    displayResults run cat = Sum.inl run := by
  unfold displayResults
  rw [if_pos]
  exact List.length_pos.mpr h

theorem C1_witness :
    ([(⟨"r1", "a.pdf", some 91, none⟩ : ScreenResult),
      ⟨"r2", "b.pdf", some 74, none⟩] ≠ []) ∧
    displayResults
      [⟨"r1", "a.pdf", some 91, none⟩, ⟨"r2", "b.pdf", some 74, none⟩]
      [⟨"r2", "b.pdf", "2024", some 74⟩] =
      Sum.inl [⟨"r1", "a.pdf", some 91, none⟩, ⟨"r2", "b.pdf", some 74, none⟩] :=
  ⟨List.cons_ne_nil _ _,
   C1_nonempty_run_displayed_verbatim _ _ (List.cons_ne_nil _ _)⟩

/-- An item whose most recent screening stored the score 0: its `score` is
defined, yet JavaScript's truthiness test drops it from the fallback. -/
def zeroScoreItem : ResumeItem :=
  { id := "r1", filename := "a.pdf", uploaded_at := "2024-01-01", score := some 0 }

/-- Claim C2 counterexample: with an empty last screening run and a catalog
holding one item whose persisted score is 0 (a defined score), the code
displays the empty list, not the subsequence of the catalog with a defined
score - the truthiness filter `r.score` also drops a zero score. -/
theorem C2_counterexample :
    zeroScoreItem.score.isSome = true ∧
    specFallback [zeroScoreItem] = [zeroScoreItem] ∧
    displayResults [] [zeroScoreItem] = Sum.inr [] ∧
    displayResults [] [zeroScoreItem] ≠ Sum.inr (specFallback [zeroScoreItem]) := by
  refine ⟨rfl, rfl, rfl, ?_⟩
  decide

/-- Claim C2 (amended): when lastScreeningRun is empty, the screening view
displays exactly the subsequence of catalog items whose score is defined
AND nonzero (JavaScript-truthy), preserving catalog order; items with an
undefined - or zero - score are omitted. -/
theorem C2_empty_run_fallback (cat : List ResumeItem) :
    displayResults [] cat = Sum.inr (cat.filter fun r => jsTruthy r.score) ∧
    (cat.filter fun r => jsTruthy r.score).Sublist cat ∧
    (∀ r, r ∈ cat.filter (fun r => jsTruthy r.score) ↔
      r ∈ cat ∧ jsTruthy r.score = true) := by
  refine ⟨rfl, List.filter_sublist cat, fun r => ?_⟩
  simp [List.mem_filter]

/-! ## Claims about Session Identity -/

/-- Claim C9 counterexample: the id is `Date.now()` behind a fixed page
tag, so two session creations that observe the same millisecond clock
reading receive identical ids - distinct creations do not always get
distinct ids. -/
theorem C9_counterexample :
    ¬ (∀ (clock : Nat → Nat) (i j : Nat), i ≠ j →
        sessionIdAtCreation SessionKind.chat clock i ≠
          sessionIdAtCreation SessionKind.chat clock j) := by
  intro h
  exact h (fun _ => 1700000000000) 0 1 (by decide) rfl

/-- Claim C9 (amended): the session id is generated exactly once at page
mount and is immutable for the lifetime of the page view (every reachable
page state carries the id minted at mount); ids of the two page kinds
never collide; and two creations of the same kind receive distinct ids
whenever their Date.now() readings differ.  Creations of the same kind
within the same millisecond receive the same id. -/
theorem C9_session_identity (now t1 t2 : Nat) (k : SessionKind) (h12 : t1 ≠ t2) :
    (∀ st, ChatPage.CReachable now st →
      st.sessionId = mkSessionId SessionKind.chat now) ∧
    (∀ st, InterviewPage.IReachable now st →
      st.sessionId = mkSessionId SessionKind.interview now) ∧
    mkSessionId k t1 ≠ mkSessionId k t2 ∧
    mkSessionId SessionKind.chat t1 ≠ mkSessionId SessionKind.interview t2 :=
  ⟨fun st h => ChatPage.cSessionId_stable now st h,
   fun st h => InterviewPage.iSessionId_stable now st h,
   mkSessionId_inj k h12,
   mkSessionId_kind_ne t1 t2⟩

theorem C9_witness :
    ((∀ st, ChatPage.CReachable 1700000000000 st →
       st.sessionId = mkSessionId SessionKind.chat 1700000000000) ∧
     (∀ st, InterviewPage.IReachable 1700000000000 st →
       st.sessionId = mkSessionId SessionKind.interview 1700000000000) ∧
     mkSessionId SessionKind.chat 1700000000000 ≠
       mkSessionId SessionKind.chat 1700000000001 ∧
     mkSessionId SessionKind.chat 1700000000000 ≠
       mkSessionId SessionKind.interview 1700000000001) :=
  C9_session_identity 1700000000000 1700000000000 1700000000001
    SessionKind.chat (by decide)

/-! ## Interview lifecycle invariants -/

/-- Inductive invariant of the interview page: the evaluation object
exists exactly when the interview is completed; a completed interview has
no exchange in flight; and a completed interview was started. -/
def InterviewPage.IInv (st : InterviewPage.IState) : Prop :=
  st.evaluation.isSome = st.completed ∧
  (st.completed = true → st.loading = false) ∧
  (st.completed = true → st.sessionStarted = true)

theorem InterviewPage.inv_reachable (now : Nat) (st : InterviewPage.IState)
    (h : InterviewPage.IReachable now st) : InterviewPage.IInv st := by
  induction h with
  | init => exact ⟨rfl, fun _ => rfl, fun hc => by simp [InterviewPage.iInit] at hc⟩
  | step _ e ih =>
    obtain ⟨ih1, ih2, ih3⟩ := ih
    cases e <;>
      simp only [InterviewPage.istep, InterviewPage.startInterview,
        InterviewPage.handleSend, InterviewPage.IInv] <;>
      repeat' split <;>
      simp_all

/-- Once the interview is completed, every further event is a strict
no-op: no state change and no network request. -/
theorem InterviewPage.completed_frozen (now : Nat) (st : InterviewPage.IState)
    (h : InterviewPage.IReachable now st) (hc : st.completed = true) :
    ∀ e, InterviewPage.istep st e = (st, none) := by
  obtain ⟨_, h2, h3⟩ := InterviewPage.inv_reachable now st h
  have hl : st.loading = false := h2 hc
  have hs : st.sessionStarted = true := h3 hc
  intro e
  cases e <;>
    simp [InterviewPage.istep, InterviewPage.handleSend, hc, hl, hs]

/-- Run a list of events from the freshly mounted interview page. -/
def InterviewPage.iRun (now : Nat) (es : List InterviewPage.IEvent) :
    InterviewPage.IState :=
  es.foldl (fun s e => (InterviewPage.istep s e).1) (InterviewPage.iInit now)

theorem InterviewPage.iRun_reachable (now : Nat) (es : List InterviewPage.IEvent) :
    InterviewPage.IReachable now (InterviewPage.iRun now es) := by
  suffices h : ∀ st, InterviewPage.IReachable now st →
      InterviewPage.IReachable now
        (es.foldl (fun s e => (InterviewPage.istep s e).1) st) from
    h _ InterviewPage.IReachable.init
  induction es with
  | nil => intro st h; exact h
  | cons e es ih => intro st h; exact ih _ (InterviewPage.IReachable.step h e)

/-! ## Claims about the Interview State Machine -/

/-- Claim C3: on every reachable interview state, the final evaluation is
defined if and only if the phase is completed; while an exchange is in
flight no final score exists yet; when an answer exchange resolves with a
completing engine response, the assistant turn carrying it is appended,
marked terminal by the render rule, the final score is set from the
response's score, and the phase moves to completed; and once completed
the score, and indeed the whole state, is immutable under every further
event. -/
theorem C3_final_score_lifecycle (now : Nat) (st : InterviewPage.IState)
    (h : InterviewPage.IReachable now st) :
    (st.evaluation.isSome = st.completed) ∧
    (st.loading = true → st.evaluation = none) ∧
    (∀ resp score, st.loading = true → st.sessionStarted = true →
      ((InterviewPage.istep st
          (InterviewPage.IEvent.answerSuccess resp true score)).1.completed = true ∧
       (InterviewPage.istep st
          (InterviewPage.IEvent.answerSuccess resp true score)).1.evaluation =
         some ⟨score, resp⟩ ∧
       (InterviewPage.istep st
          (InterviewPage.IEvent.answerSuccess resp true score)).1.messages =
         st.messages ++ [⟨Role.assistant, resp⟩] ∧
       InterviewPage.isTerminalTurn
         (InterviewPage.istep st
           (InterviewPage.IEvent.answerSuccess resp true score)).1
         ((InterviewPage.istep st
            (InterviewPage.IEvent.answerSuccess resp true score)).1.messages.length - 1)
         = true)) ∧
    (st.completed = true → ∀ e, InterviewPage.istep st e = (st, none)) := by
  obtain ⟨h1, h2, h3⟩ := InterviewPage.inv_reachable now st h
  refine ⟨h1, ?_, ?_, InterviewPage.completed_frozen now st h⟩
  · intro hl
    have hc : st.completed = false := by
      by_contra hc
      simp only [Bool.not_eq_false] at hc
      rw [h2 hc] at hl
      exact Bool.false_ne_true hl
    rw [hc] at h1
    exact Option.not_isSome_iff_eq_none.mp (by simp [h1])
  · intro resp score hl hs
    simp [InterviewPage.istep, hl, hs, InterviewPage.isTerminalTurn]

/-- Claim C4: a start click on an interview whose phase is no longer
not-started (the start form is gone once `sessionStarted` is set) is
rejected outright: no network request is issued, no turn is appended, and
the state is unchanged. -/
theorem C4_second_start_rejected (st : InterviewPage.IState)
    (h : st.sessionStarted = true) :
    InterviewPage.istep st InterviewPage.IEvent.clickStart = (st, none) := by
  simp [InterviewPage.istep, h]

theorem C4_witness :
    InterviewPage.istep
      { sessionStarted := true, candidateName := "Ada", position := "Backend",
        messages := [⟨Role.assistant, "Tell me about yourself"⟩], input := "",
        loading := false, completed := false, evaluation := none,
        sessionId := "interview_1700000000000" }
      InterviewPage.IEvent.clickStart =
    ({ sessionStarted := true, candidateName := "Ada", position := "Backend",
       messages := [⟨Role.assistant, "Tell me about yourself"⟩], input := "",
       loading := false, completed := false, evaluation := none,
       sessionId := "interview_1700000000000" }, none) :=
  C4_second_start_rejected _ rfl

/-- Claim C6: an answer sent while the interview is completed is rejected:
the handler's own guard and the withdrawn input surface both produce a
strict no-op - no transcript mutation and no network request. -/
theorem C6_answer_after_completion_rejected (st : InterviewPage.IState)
    (h : st.completed = true) :
    InterviewPage.handleSend st = (st, none) ∧
    InterviewPage.istep st InterviewPage.IEvent.clickSend = (st, none) := by
  constructor
  · simp [InterviewPage.handleSend, h]
  · simp [InterviewPage.istep, h]

theorem C6_witness :
    InterviewPage.handleSend
      { sessionStarted := true, candidateName := "Ada", position := "Backend",
        messages := [], input := "one more answer", loading := false,
        completed := true, evaluation := some ⟨some 82, "done"⟩,
        sessionId := "interview_1" } =
      ({ sessionStarted := true, candidateName := "Ada", position := "Backend",
         messages := [], input := "one more answer", loading := false,
         completed := true, evaluation := some ⟨some 82, "done"⟩,
         sessionId := "interview_1" }, none) ∧
    InterviewPage.istep
      { sessionStarted := true, candidateName := "Ada", position := "Backend",
        messages := [], input := "one more answer", loading := false,
        completed := true, evaluation := some ⟨some 82, "done"⟩,
        sessionId := "interview_1" }
      InterviewPage.IEvent.clickSend =
      ({ sessionStarted := true, candidateName := "Ada", position := "Backend",
         messages := [], input := "one more answer", loading := false,
         completed := true, evaluation := some ⟨some 82, "done"⟩,
         sessionId := "interview_1" }, none) :=
  C6_answer_after_completion_rejected _ rfl

/-- An interview run up to the middle of the second exchange: started,
one answer sent, its engine response still outstanding. -/
def c3Trace : List InterviewPage.IEvent :=
  [InterviewPage.IEvent.typeName "Ada",
   InterviewPage.IEvent.typePosition "Backend Engineer",
   InterviewPage.IEvent.clickStart,
   InterviewPage.IEvent.startSuccess "Tell me about yourself",
   InterviewPage.IEvent.typeInput "I have 5 years of experience",
   InterviewPage.IEvent.clickSend]

theorem C3_witness :
    ((InterviewPage.iRun 0 c3Trace).evaluation.isSome =
        (InterviewPage.iRun 0 c3Trace).completed) ∧
    ((InterviewPage.iRun 0 c3Trace).loading = true →
        (InterviewPage.iRun 0 c3Trace).evaluation = none) ∧
    (∀ resp score, (InterviewPage.iRun 0 c3Trace).loading = true →
      (InterviewPage.iRun 0 c3Trace).sessionStarted = true →
      ((InterviewPage.istep (InterviewPage.iRun 0 c3Trace)
          (InterviewPage.IEvent.answerSuccess resp true score)).1.completed = true ∧
       (InterviewPage.istep (InterviewPage.iRun 0 c3Trace)
          (InterviewPage.IEvent.answerSuccess resp true score)).1.evaluation =
         some ⟨score, resp⟩ ∧
       (InterviewPage.istep (InterviewPage.iRun 0 c3Trace)
          (InterviewPage.IEvent.answerSuccess resp true score)).1.messages =
         (InterviewPage.iRun 0 c3Trace).messages ++ [⟨Role.assistant, resp⟩] ∧
       InterviewPage.isTerminalTurn
         (InterviewPage.istep (InterviewPage.iRun 0 c3Trace)
           (InterviewPage.IEvent.answerSuccess resp true score)).1
         ((InterviewPage.istep (InterviewPage.iRun 0 c3Trace)
            (InterviewPage.IEvent.answerSuccess resp true score)).1.messages.length - 1)
         = true)) ∧
    ((InterviewPage.iRun 0 c3Trace).completed = true →
      ∀ e, InterviewPage.istep (InterviewPage.iRun 0 c3Trace) e =
        (InterviewPage.iRun 0 c3Trace, none)) :=
  C3_final_score_lifecycle 0 (InterviewPage.iRun 0 c3Trace)
    (InterviewPage.iRun_reachable 0 c3Trace)

/-! ## Claims about the Turn-Exchange Protocol (chat) -/

/-- Claim C7: a chat message that is empty after trimming is rejected
locally: the handler returns with no request issued and the state - in
particular the transcript - untouched, whether invoked directly or
through the page event. -/
theorem C7_blank_message_rejected (st : ChatPage.CState)
    (h : jsTrim st.input = "") :
    ChatPage.handleSend st = (st, none) ∧
    ChatPage.cstep st ChatPage.CEvent.clickSend = (st, none) := by
  have h1 : ChatPage.handleSend st = (st, none) := by
    simp [ChatPage.handleSend, h]
  refine ⟨h1, ?_⟩
  simp only [ChatPage.cstep]
  split
  · rfl
  · exact h1

theorem C7_witness :
    ChatPage.handleSend
      { messages := [⟨Role.user, "hi", none, none⟩], input := "   ",
        loading := false, historyPending := false, sessionId := "session_1" } =
      ({ messages := [⟨Role.user, "hi", none, none⟩], input := "   ",
         loading := false, historyPending := false, sessionId := "session_1" }, none) ∧
    ChatPage.cstep
      { messages := [⟨Role.user, "hi", none, none⟩], input := "   ",
        loading := false, historyPending := false, sessionId := "session_1" }
      ChatPage.CEvent.clickSend =
      ({ messages := [⟨Role.user, "hi", none, none⟩], input := "   ",
         loading := false, historyPending := false, sessionId := "session_1" }, none) :=
  C7_blank_message_rejected _ (by decide)

/-- Claim C8: at most one exchange is in flight per session.  While
`loading` is set, a chat send and an interview answer are both rejected
outright - not queued: no transcript mutation and no network request, at
the handler and at the page event alike. -/
theorem C8_single_exchange_in_flight
    (cst : ChatPage.CState) (hc : cst.loading = true)
    (ist : InterviewPage.IState) (hi : ist.loading = true) :
    ChatPage.handleSend cst = (cst, none) ∧
    ChatPage.cstep cst ChatPage.CEvent.clickSend = (cst, none) ∧
    InterviewPage.handleSend ist = (ist, none) ∧
    InterviewPage.istep ist InterviewPage.IEvent.clickSend = (ist, none) := by
  refine ⟨?_, ?_, ?_, ?_⟩
  · simp [ChatPage.handleSend, hc]
  · simp [ChatPage.cstep, hc]
  · simp [InterviewPage.handleSend, hi]
  · simp [InterviewPage.istep, hi]

theorem C8_witness :
    ChatPage.handleSend
      { messages := [], input := "second question", loading := true,
        historyPending := false, sessionId := "session_2" } =
      ({ messages := [], input := "second question", loading := true,
         historyPending := false, sessionId := "session_2" }, none) ∧
    ChatPage.cstep
      { messages := [], input := "second question", loading := true,
        historyPending := false, sessionId := "session_2" }
      ChatPage.CEvent.clickSend =
      ({ messages := [], input := "second question", loading := true,
         historyPending := false, sessionId := "session_2" }, none) ∧
    InterviewPage.handleSend
      { sessionStarted := true, candidateName := "Ada", position := "Backend",
        messages := [], input := "second answer", loading := true,
        completed := false, evaluation := none, sessionId := "interview_2" } =
      ({ sessionStarted := true, candidateName := "Ada", position := "Backend",
         messages := [], input := "second answer", loading := true,
         completed := false, evaluation := none, sessionId := "interview_2" }, none) ∧
    InterviewPage.istep
      { sessionStarted := true, candidateName := "Ada", position := "Backend",
        messages := [], input := "second answer", loading := true,
        completed := false, evaluation := none, sessionId := "interview_2" }
      InterviewPage.IEvent.clickSend =
      ({ sessionStarted := true, candidateName := "Ada", position := "Backend",
         messages := [], input := "second answer", loading := true,
         completed := false, evaluation := none, sessionId := "interview_2" }, none) :=
  C8_single_exchange_in_flight _ rfl _ rfl

/-! ## Claims about failure handling -/

/-- Claim C5: for every engine-call failure - chat exchange, interview
answer, interview start, screening - the local state is exactly what it
was before the failed call, except that the optimistically appended user
turn of the chat and answer flows is retained; no assistant turn is
appended on failure, and the loading flag is cleared so the operation can
be retried. -/
theorem C5_engine_failure_preserves_state
    (cst : ChatPage.CState) (hcl : cst.loading = false)
    (hci : jsTrim cst.input ≠ "")
    (ist : InterviewPage.IState) (hil : ist.loading = false)
    (hic : ist.completed = false) (his : ist.sessionStarted = true)
    (hii : jsTrim ist.input ≠ "")
    (jst : InterviewPage.IState) (hjl : jst.loading = false)
    (hjs : jst.sessionStarted = false)
    (hjn : jsTrim jst.candidateName ≠ "") (hjp : jsTrim jst.position ≠ "")
    (rst : ResumePage.RState) (hrs : rst.screening = false)
    (hrj : jsTrim rst.jobDescription ≠ "") (hrr : rst.resumes.length ≠ 0) :
    ((ChatPage.handleSend cst).2 = some ⟨cst.sessionId, cst.input⟩ ∧
     (ChatPage.cstep (ChatPage.handleSend cst).1 ChatPage.CEvent.chatFailure).1 =
       { cst with input := "",
                  messages := cst.messages ++ [⟨Role.user, cst.input, none, none⟩] }) ∧
    ((InterviewPage.handleSend ist).2 =
       some ⟨ist.sessionId, ist.candidateName, ist.position, some ist.input⟩ ∧
     (InterviewPage.istep (InterviewPage.handleSend ist).1
        InterviewPage.IEvent.answerFailure).1 =
       { ist with input := "",
                  messages := ist.messages ++ [⟨Role.user, ist.input⟩] }) ∧
    ((InterviewPage.startInterview jst).2 =
       some ⟨jst.sessionId, jst.candidateName, jst.position, none⟩ ∧
     (InterviewPage.istep (InterviewPage.startInterview jst).1
        InterviewPage.IEvent.startFailure).1 = jst) ∧
    ((ResumePage.handleScreenResumes rst).2 =
       some (ResumePage.RRequest.screen ⟨rst.jobDescription⟩) ∧
     (ResumePage.rstep (ResumePage.handleScreenResumes rst).1
        ResumePage.REvent.screenFailure).1 = rst) := by
  refine ⟨⟨?_, ?_⟩, ⟨?_, ?_⟩, ⟨?_, ?_⟩, ⟨?_, ?_⟩⟩
  · simp [ChatPage.handleSend, hci, hcl]
  · obtain ⟨cm, ci, cl, chp, csid⟩ := cst
    simp only at hcl hci
    subst hcl
    simp [ChatPage.handleSend, ChatPage.cstep, hci]
  · have hst : ist.sessionStarted = ist.sessionStarted := rfl
    simp [InterviewPage.handleSend, hii, hil, hic]
  · obtain ⟨iss, icn, ip, im, ii, il, ic, ie, isid⟩ := ist
    simp only at hil hic his hii
    subst hil
    subst hic
    subst his
    simp [InterviewPage.handleSend, InterviewPage.istep, hii]
  · simp [InterviewPage.startInterview, hjn, hjp]
  · obtain ⟨jss, jcn, jp, jm, ji, jl, jc, je, jsid⟩ := jst
    simp only at hjl hjs hjn hjp
    subst hjl
    subst hjs
    simp [InterviewPage.startInterview, InterviewPage.istep, hjn, hjp]
  · simp [ResumePage.handleScreenResumes, hrj, hrr]
  · obtain ⟨rr, ru, rs, rsf, rjd, rsr⟩ := rst
    simp only at hrs hrj hrr
    subst hrs
    simp [ResumePage.handleScreenResumes, ResumePage.rstep, hrj, hrr]

/-- Concrete chat state mid-typing, used to witness C5. -/
def c5ChatW : ChatPage.CState :=
  { messages := [], input := "What is the leave policy?", loading := false,
    historyPending := false, sessionId := "session_5" }

/-- Concrete in-progress interview about to send an answer, for C5. -/
def c5AnswerW : InterviewPage.IState :=
  { sessionStarted := true, candidateName := "Ada", position := "Backend",
    messages := [⟨Role.assistant, "Tell me about yourself"⟩],
    input := "I have 5 years of experience", loading := false,
    completed := false, evaluation := none, sessionId := "interview_5" }

/-- Concrete not-yet-started interview about to start, for C5. -/
def c5StartW : InterviewPage.IState :=
  { sessionStarted := false, candidateName := "Ada", position := "Backend",
    messages := [], input := "", loading := false, completed := false,
    evaluation := none, sessionId := "interview_6" }

/-- Concrete screening view about to run a screening, for C5. -/
def c5ScreenW : ResumePage.RState :=
  { resumes := [⟨"r1", "a.pdf", "2024-01-01", none⟩], uploading := false,
    screening := false, selectedFile := none,
    jobDescription := "Backend engineer role", screenResults := [] }

theorem C5_witness :
    ((ChatPage.handleSend c5ChatW).2 = some ⟨c5ChatW.sessionId, c5ChatW.input⟩ ∧
     (ChatPage.cstep (ChatPage.handleSend c5ChatW).1 ChatPage.CEvent.chatFailure).1 =
       { c5ChatW with
          input := "",
          messages := c5ChatW.messages ++ [⟨Role.user, c5ChatW.input, none, none⟩] }) ∧
    ((InterviewPage.handleSend c5AnswerW).2 =
       some ⟨c5AnswerW.sessionId, c5AnswerW.candidateName, c5AnswerW.position,
             some c5AnswerW.input⟩ ∧
     (InterviewPage.istep (InterviewPage.handleSend c5AnswerW).1
        InterviewPage.IEvent.answerFailure).1 =
       { c5AnswerW with
          input := "",
          messages := c5AnswerW.messages ++ [⟨Role.user, c5AnswerW.input⟩] }) ∧
    ((InterviewPage.startInterview c5StartW).2 =
       some ⟨c5StartW.sessionId, c5StartW.candidateName, c5StartW.position, none⟩ ∧
     (InterviewPage.istep (InterviewPage.startInterview c5StartW).1
        InterviewPage.IEvent.startFailure).1 = c5StartW) ∧
    ((ResumePage.handleScreenResumes c5ScreenW).2 =
       some (ResumePage.RRequest.screen ⟨c5ScreenW.jobDescription⟩) ∧
     (ResumePage.rstep (ResumePage.handleScreenResumes c5ScreenW).1
        ResumePage.REvent.screenFailure).1 = c5ScreenW) :=
  C5_engine_failure_preserves_state
    c5ChatW rfl (by decide)
    c5AnswerW rfl rfl rfl (by decide)
    c5StartW rfl rfl (by decide) (by decide)
    c5ScreenW rfl (by decide) (by decide)

/-! ## Upload validation invariants -/

/-- A resume-page event either leaves the selected file alone, clears it,
or stores a file that passed name validation. -/
theorem ResumePage.rstep_selectedFile_valid (st : ResumePage.RState)
    (e : ResumePage.REvent) (f : JsFile)
    (hf : (ResumePage.rstep st e).1.selectedFile = some f) :
    validUploadName f.name = true ∨ st.selectedFile = some f := by
  cases e <;>
    simp only [ResumePage.rstep, ResumePage.handleFileChange,
      ResumePage.handleUpload, ResumePage.handleScreenResumes] at hf <;>
    (repeat' split at hf) <;>
    first
    | exact Or.inr hf
    | simp_all

/-- Every reachable resume-page selection passed name validation. -/
theorem ResumePage.rSelectedFile_valid (st : ResumePage.RState)
    (h : ResumePage.RReachable st) :
    ∀ f, st.selectedFile = some f → validUploadName f.name = true := by
  induction h with
  | init => intro f hf; simp [ResumePage.rInit] at hf
  | step _ e ih =>
    intro f hf
    rcases ResumePage.rstep_selectedFile_valid _ e f hf with hv | hold
    · exact hv
    · exact ih f hold

/-- A documents-page event either leaves the selected file alone, clears
it, or stores a file that passed name validation. -/
theorem DocumentsPage.dstep_selectedFile_valid (st : DocumentsPage.DState)
    (e : DocumentsPage.DEvent) (f : JsFile)
    (hf : (DocumentsPage.dstep st e).1.selectedFile = some f) :
    validUploadName f.name = true ∨ st.selectedFile = some f := by
  cases e <;>
    simp only [DocumentsPage.dstep, DocumentsPage.handleFileChange,
      DocumentsPage.handleUpload] at hf <;>
    (repeat' split at hf) <;>
    first
    | exact Or.inr hf
    | simp_all

/-- Every reachable documents-page selection passed name validation. -/
theorem DocumentsPage.dSelectedFile_valid (st : DocumentsPage.DState)
    (h : DocumentsPage.DReachable st) :
    ∀ f, st.selectedFile = some f → validUploadName f.name = true := by
  induction h with
  | init => intro f hf; simp [DocumentsPage.dInit] at hf
  | step _ e ih =>
    intro f hf
    rcases DocumentsPage.dstep_selectedFile_valid _ e f hf with hv | hold
    · exact hv
    · exact ih f hold

/-- Run a list of events from the freshly mounted resume page. -/
def ResumePage.rRun (es : List ResumePage.REvent) : ResumePage.RState :=
  es.foldl (fun s e => (ResumePage.rstep s e).1) ResumePage.rInit

theorem ResumePage.rRun_reachable (es : List ResumePage.REvent) :
    ResumePage.RReachable (ResumePage.rRun es) := by
  suffices h : ∀ st, ResumePage.RReachable st →
      ResumePage.RReachable (es.foldl (fun s e => (ResumePage.rstep s e).1) st) from
    h _ ResumePage.RReachable.init
  induction es with
  | nil => intro st h; exact h
  | cons e es ih => intro st h; exact ih _ (ResumePage.RReachable.step h e)

/-- Run a list of events from the freshly mounted documents page. -/
def DocumentsPage.dRun (es : List DocumentsPage.DEvent) : DocumentsPage.DState :=
  es.foldl (fun s e => (DocumentsPage.dstep s e).1) DocumentsPage.dInit

theorem DocumentsPage.dRun_reachable (es : List DocumentsPage.DEvent) :
    DocumentsPage.DReachable (DocumentsPage.dRun es) := by
  suffices h : ∀ st, DocumentsPage.DReachable st →
      DocumentsPage.DReachable (es.foldl (fun s e => (DocumentsPage.dstep s e).1) st) from
    h _ DocumentsPage.DReachable.init
  induction es with
  | nil => intro st h; exact h
  | cons e es ih => intro st h; exact ih _ (DocumentsPage.DReachable.step h e)

/-- Claim C10: on both upload views, choosing a file whose name does not
end in .pdf or .docx leaves the selected-file state unchanged (a
previously selected valid file stays selected); consequently on every
reachable state the selection only ever holds validated names, and any
upload request the pages emit carries a validated name. -/
theorem C10_upload_extension_validation
    (rst : ResumePage.RState) (hr : ResumePage.RReachable rst)
    (dst : DocumentsPage.DState) (hd : DocumentsPage.DReachable dst)
    (files : List JsFile) (f : JsFile) (hhead : files.head? = some f)
    (hf : validUploadName f.name = false) :
    ResumePage.handleFileChange rst files = rst ∧
    DocumentsPage.handleFileChange dst files = dst ∧
    (∀ g, rst.selectedFile = some g → validUploadName g.name = true) ∧
    (∀ g, dst.selectedFile = some g → validUploadName g.name = true) ∧
    (∀ r, (ResumePage.rstep rst ResumePage.REvent.clickUpload).2 =
        some (ResumePage.RRequest.upload r) → validUploadName r.file.name = true) ∧
    (∀ r, (DocumentsPage.dstep dst DocumentsPage.DEvent.clickUpload).2 = some r →
        validUploadName r.file.name = true) := by
  refine ⟨?_, ?_, ResumePage.rSelectedFile_valid rst hr,
          DocumentsPage.dSelectedFile_valid dst hd, ?_, ?_⟩
  · simp [ResumePage.handleFileChange, hhead, hf]
  · simp [DocumentsPage.handleFileChange, hhead, hf]
  · intro r hreq
    simp only [ResumePage.rstep] at hreq
    split at hreq
    · unfold ResumePage.handleUpload at hreq
      split at hreq
      · simp at hreq
      · rename_i g hg
        simp at hreq
        subst hreq
        exact ResumePage.rSelectedFile_valid rst hr g hg
    · simp at hreq
  · intro r hreq
    simp only [DocumentsPage.dstep] at hreq
    split at hreq
    · unfold DocumentsPage.handleUpload at hreq
      split at hreq
      · simp at hreq
      · rename_i g hg
        simp at hreq
        subst hreq
        exact DocumentsPage.dSelectedFile_valid dst hd g hg
    · simp at hreq

theorem C10_witness :
    ResumePage.handleFileChange
      (ResumePage.rRun [ResumePage.REvent.fileChange [⟨"cv.pdf"⟩]])
      [⟨"photo.png"⟩] =
      ResumePage.rRun [ResumePage.REvent.fileChange [⟨"cv.pdf"⟩]] ∧
    DocumentsPage.handleFileChange
      (DocumentsPage.dRun [DocumentsPage.DEvent.fileChange [⟨"policy.docx"⟩]])
      [⟨"photo.png"⟩] =
      DocumentsPage.dRun [DocumentsPage.DEvent.fileChange [⟨"policy.docx"⟩]] ∧
    (∀ g, (ResumePage.rRun
        [ResumePage.REvent.fileChange [⟨"cv.pdf"⟩]]).selectedFile = some g →
      validUploadName g.name = true) ∧
    (∀ g, (DocumentsPage.dRun
        [DocumentsPage.DEvent.fileChange [⟨"policy.docx"⟩]]).selectedFile = some g →
      validUploadName g.name = true) ∧
    (∀ r, (ResumePage.rstep
        (ResumePage.rRun [ResumePage.REvent.fileChange [⟨"cv.pdf"⟩]])
        ResumePage.REvent.clickUpload).2 =
        some (ResumePage.RRequest.upload r) → validUploadName r.file.name = true) ∧
    (∀ r, (DocumentsPage.dstep
        (DocumentsPage.dRun [DocumentsPage.DEvent.fileChange [⟨"policy.docx"⟩]])
        DocumentsPage.DEvent.clickUpload).2 = some r →
        validUploadName r.file.name = true) :=
  C10_upload_extension_validation
    (ResumePage.rRun [ResumePage.REvent.fileChange [⟨"cv.pdf"⟩]])
    (ResumePage.rRun_reachable _)
    (DocumentsPage.dRun [DocumentsPage.DEvent.fileChange [⟨"policy.docx"⟩]])
    (DocumentsPage.dRun_reachable _)
    [⟨"photo.png"⟩] ⟨"photo.png"⟩ rfl (by decide)

end AIAgent
